import Mathlib

/-!
Verification of the housing decay/movement agent-based model
(`geo_housing`): a shallow embedding of the region economic/physical
state machine, the household mobility decision, and the spatial
membership bookkeeping, together with theorems settling the spec's
claims.

Conventions of the embedding:
* Python floats are modelled as real numbers (`ℝ`); counters as `ℕ`.
* The stochastic draws (`random.choice` over a candidate list) are
  modelled by an explicit index argument: the uniformly drawn index into
  the list of candidates.
* The `CensusTract` spatial index (its source file is not among the
  provided sources; only its callers are) is modelled from the spec:
  an explicit person-id → region-id membership list plus a cached
  adjacency list, with `add` inserting a membership pair and updating
  the person's region reference, and `remove` deleting the person's
  membership pairs.
-/

open Classical

/-- State of a `PersonAgent` (a household), following
`experimental/geo_housing/agents.py`.  Geometry and crs are omitted:
no claim depends on them. -/
structure PersonAgent where
  unique_id : ℕ
  income_level : ℝ
  housing_quality_threshold : ℝ
  max_complaint : ℕ
  region_id : ℕ
  move_count : ℕ
  attempt_rent : ℕ
  attempt_quality : ℕ
  attempt_displaced : ℕ
  is_displaced : Bool
  displacement_count : ℕ
  complaints : ℕ
  total_complaints : ℕ

/-- `PersonAgent.maximum_affordable_rent`: half of the income level. -/
def PersonAgent.maximum_affordable_rent (p : PersonAgent) : ℝ :=
  0.5 * p.income_level

/-- State of a `RegionAgent` (a census tract), following
`experimental/geo_housing/agents.py`. -/
structure RegionAgent where
  unique_id : ℕ
  rent_regulated : Bool
  initial_quality : ℝ
  housing_quality : ℝ
  rent_discount : ℝ
  renovations : ℕ
  decay_constant : ℝ
  rent_increase : ℝ
  num_month_rent_renovation : ℝ
  steps : ℕ

/-- The model state visible to the agents: the region set, the person
states, and the spatial index.  `membership` is the authoritative
person-id → region-id map owned by the spatial index; `neighbors` is
the cached region adjacency (computed once at setup from geometry). -/
structure GeoHousing where
  regions : List RegionAgent
  persons : List PersonAgent
  membership : List (ℕ × ℕ)
  neighbors : List (ℕ × List ℕ)

/-- Modelled from the spec: `neighborsOf` of the SpatialIndex returns the
cached adjacency of a region (excluding self), an explicit adjacency
list keyed by region id. -/
def GeoHousing.neighborsOf (m : GeoHousing) (rid : ℕ) : List ℕ :=
  match m.neighbors.find? (fun pr => pr.1 == rid) with
  | some pr => pr.2
  | none => []

/-- Modelled from the spec: `membersOf` of the SpatialIndex returns the
ids of all persons currently mapped to the region. -/
def GeoHousing.membersOf (m : GeoHousing) (rid : ℕ) : List ℕ :=
  (m.membership.filter (fun pr => pr.2 == rid)).map Prod.fst

/-- Look up a person state by id. -/
def GeoHousing.getPerson (m : GeoHousing) (pid : ℕ) : Option PersonAgent :=
  m.persons.find? (fun p => p.unique_id == pid)

/-- `space.get_agents_within_region`: the person states of the current
members of a region. -/
def GeoHousing.residents (m : GeoHousing) (rid : ℕ) : List PersonAgent :=
  (m.membersOf rid).filterMap m.getPerson

/-- `space.get_region_by_id`, modelled from the spec: `none` models the
`UnknownRegion` failure. -/
def GeoHousing.get_region_by_id (m : GeoHousing) (rid : ℕ) : Option RegionAgent :=
  m.regions.find? (fun r => r.unique_id == rid)

/-- The residents of a region together with the residents of all its
neighbors, in the order `RegionAgent.area_ami` accumulates them
(`[self] + list(neighbors)`). -/
def GeoHousing.neighborhood_residents (m : GeoHousing) (rid : ℕ) : List PersonAgent :=
  m.residents rid ++ (m.neighborsOf rid).flatMap m.residents

/-- `RegionAgent.area_ami`: mean income over the residents of the region
and of its neighbors; `0` when that set is empty (`np.mean` is guarded
by the emptiness check in the source). -/
noncomputable def area_ami (m : GeoHousing) (rid : ℕ) : ℝ :=
  let all_residents := m.neighborhood_residents rid
  if all_residents.isEmpty then 0
  else (all_residents.map PersonAgent.income_level).sum / all_residents.length

/-- `RegionAgent.own_ami`: mean income over the region's own residents;
`0` when the region is vacant. -/
noncomputable def own_ami (m : GeoHousing) (rid : ℕ) : ℝ :=
  let all_residents := m.residents rid
  if all_residents.isEmpty then 0
  else (all_residents.map PersonAgent.income_level).sum / all_residents.length

/-- `RegionAgent.num_complaints`: total complaints of the region's
current residents (`0` when vacant). -/
def num_complaints (m : GeoHousing) (rid : ℕ) : ℕ :=
  let all_residents := m.residents rid
  if all_residents.isEmpty then 0
  else (all_residents.map PersonAgent.complaints).sum

/-- `RegionAgent.people_count`: number of current residents. -/
def people_count (m : GeoHousing) (rid : ℕ) : ℕ :=
  (m.residents rid).length

/-- `RegionAgent.rent_price`: half the area income, multiplied by the
discount factor when rent regulated, compounded by
`rent_increase ^ renovations`. -/
noncomputable def rent_price (m : GeoHousing) (r : RegionAgent) : ℝ :=
  let base_rent := 0.5 * area_ami m r.unique_id
  if r.rent_regulated then
    base_rent * r.rent_discount * r.rent_increase ^ r.renovations
  else
    base_rent * r.rent_increase ^ r.renovations

/-- `RegionAgent.rent_profit`: marginal rent gain of the next renovation
over the current rent, with the source's special case for a first
renovation. -/
noncomputable def rent_profit (m : GeoHousing) (r : RegionAgent) : ℝ :=
  let base_rent := 0.5 * area_ami m r.unique_id
  if r.renovations = 0 then
    if r.rent_regulated then base_rent * r.rent_discount * (r.rent_increase - 1)
    else base_rent * (r.rent_increase - 1)
  else
    if r.rent_regulated then
      base_rent * r.rent_discount * r.rent_increase ^ (r.renovations + 1)
        - base_rent * r.rent_discount * r.rent_increase ^ r.renovations
    else
      base_rent * r.rent_increase ^ (r.renovations + 1)
        - base_rent * r.rent_increase ^ r.renovations

/-- `RegionAgent.decays`: recompute quality by exponential decay from the
initial quality and the current step counter. -/
noncomputable def RegionAgent.decays (r : RegionAgent) : RegionAgent :=
  { r with housing_quality :=
      r.initial_quality * Real.exp (-(r.decay_constant * (r.steps : ℝ))) }

/-- `RegionAgent.renovate`: reset quality to the regulation-dependent
ceiling, increment the renovation counter, reset the step counter. -/
def RegionAgent.renovate (r : RegionAgent) : RegionAgent :=
  { r with housing_quality := if r.rent_regulated then 90 else 100,
           renovations := r.renovations + 1,
           steps := 0 }

/-- `RegionAgent.enforcement`: reset quality to the regulation-dependent
floor and reset the step counter; the renovation counter is not
touched. -/
def RegionAgent.enforcement (r : RegionAgent) : RegionAgent :=
  { r with housing_quality := if r.rent_regulated then 50 else 60,
           steps := 0 }

/-- `RegionAgent.step`: increment the step counter, decay, then run the
enforcement check and, independently of its outcome, the renovation
check (two separate `if` statements in the source). -/
noncomputable def RegionAgent.step (m : GeoHousing) (r : RegionAgent) : RegionAgent :=
  let r1 : RegionAgent := { r with steps := r.steps + 1 }
  let r2 := r1.decays
  let r3 := if 5 < num_complaints m r2.unique_id then r2.enforcement else r2
  if rent_profit m r3 * 60 > rent_price m r3 * r3.num_month_rent_renovation
  then r3.renovate else r3

theorem rent_price_update_steps (m : GeoHousing) (r : RegionAgent) (s : ℕ) (q : ℝ) :
    rent_price m { r with steps := s, housing_quality := q } = rent_price m r := rfl

theorem rent_profit_update_steps (m : GeoHousing) (r : RegionAgent) (s : ℕ) (q : ℝ) :
    rent_profit m { r with steps := s, housing_quality := q } = rent_profit m r := rfl

/-- Modelled from the spec: `space.remove_person_from_region` of the
SpatialIndex removes the person's current membership. -/
def GeoHousing.remove_person_from_region (m : GeoHousing) (p : PersonAgent) : GeoHousing :=
  { m with membership := m.membership.filter (fun pr => pr.1 != p.unique_id) }

/-- Modelled from the spec: `space.add_person_to_region` of the
SpatialIndex inserts a membership pair for the person and updates the
person's region reference (the person never reassigns its own region
field directly). -/
def GeoHousing.add_person_to_region (m : GeoHousing) (p : PersonAgent) (rid : ℕ) :
    GeoHousing × PersonAgent :=
  ({ m with membership := (p.unique_id, rid) :: m.membership },
   { p with region_id := rid })

/-- The candidate list of `PersonAgent.move_to_suitable_region`: regions
whose quality reaches the person's threshold, whose rent is affordable,
and whose occupancy is at most 2, in region-list order. -/
noncomputable def suitable_regions (m : GeoHousing) (p : PersonAgent) : List RegionAgent :=
  m.regions.filter fun a =>
    decide (p.housing_quality_threshold ≤ a.housing_quality ∧
      rent_price m a ≤ p.maximum_affordable_rent ∧
      people_count m a.unique_id ≤ 2)

/-- `PersonAgent.move_to_suitable_region`: pick the candidate indexed by
the uniformly drawn index `k` (taken modulo the candidate count), remove
the person from its old region, add it to the new one and increment the
move counter; on an empty candidate list, flag the person displaced and
increment the displacement counter.  `random.choice` is modelled by the
index `k`. -/
noncomputable def move_to_suitable_region (m : GeoHousing) (p : PersonAgent) (k : ℕ) :
    GeoHousing × PersonAgent :=
  let suitable := suitable_regions m p
  match suitable[k % suitable.length]? with
  | some new_region =>
      let m1 := m.remove_person_from_region p
      let s := m1.add_person_to_region p new_region.unique_id
      (s.1, { s.2 with move_count := s.2.move_count + 1 })
  | none =>
      (m, { p with is_displaced := true,
                   displacement_count := p.displacement_count + 1 })

/-- The displaced branch of `PersonAgent.step`: a displaced person
attempts a relocation at once and the attempt is counted, without ending
the step.  The `random.choice` draw of this possible move is the index
`k1`. -/
noncomputable def PersonAgent.displaced_phase (m : GeoHousing) (p : PersonAgent)
    (k1 : ℕ) : GeoHousing × PersonAgent :=
  if p.is_displaced then
    let s := move_to_suitable_region m p k1
    (s.1, { s.2 with attempt_displaced := s.2.attempt_displaced + 1 })
  else (m, p)

/-- The affordability and quality checks of `PersonAgent.step`,
evaluated against `current_region` — the region object resolved at step
entry; the possible rent- or quality-triggered move draws the index
`k2`. -/
noncomputable def PersonAgent.checks (m1 : GeoHousing) (current_region : RegionAgent)
    (p1 : PersonAgent) (k2 : ℕ) : GeoHousing × PersonAgent :=
  if p1.maximum_affordable_rent < rent_price m1 current_region then
    let s := move_to_suitable_region m1 p1 k2
    (s.1, { s.2 with attempt_rent := s.2.attempt_rent + 1, complaints := 0 })
  else
    if current_region.housing_quality < p1.housing_quality_threshold then
      let p2 : PersonAgent :=
        { p1 with complaints := p1.complaints + 1,
                  total_complaints := p1.total_complaints + 1 }
      if p2.max_complaint ≤ p2.complaints then
        let s := move_to_suitable_region m1 p2 k2
        (s.1, { s.2 with attempt_quality := s.2.attempt_quality + 1, complaints := 0 })
      else (m1, p2)
    else (m1, { p1 with complaints := 0 })

/-- `PersonAgent.step`: resolve the current region exactly once from
`region_id` at step entry (`none` models the `UnknownRegion` failure),
run the displaced branch, then run the rent/quality checks against the
entry region. -/
noncomputable def PersonAgent.step (m : GeoHousing) (p : PersonAgent) (k1 k2 : ℕ) :
    Option (GeoHousing × PersonAgent) :=
  match m.get_region_by_id p.region_id with
  | none => none
  | some current_region =>
    let s1 := PersonAgent.displaced_phase m p k1
    some (PersonAgent.checks s1.1 current_region s1.2 k2)

theorem move_preserves_person_fields (m : GeoHousing) (p : PersonAgent) (k : ℕ) :
    (move_to_suitable_region m p k).2.income_level = p.income_level ∧
    (move_to_suitable_region m p k).2.housing_quality_threshold = p.housing_quality_threshold ∧
    (move_to_suitable_region m p k).2.max_complaint = p.max_complaint ∧
    (move_to_suitable_region m p k).2.complaints = p.complaints ∧
    (move_to_suitable_region m p k).2.total_complaints = p.total_complaints ∧
    (move_to_suitable_region m p k).2.attempt_rent = p.attempt_rent ∧
    (move_to_suitable_region m p k).2.attempt_quality = p.attempt_quality ∧
    (move_to_suitable_region m p k).2.attempt_displaced = p.attempt_displaced := by
  unfold move_to_suitable_region
  cases h : (suitable_regions m p)[k % (suitable_regions m p).length]? <;>
    simp [h, GeoHousing.add_person_to_region]

@[simp] theorem move_snd_income_level (m : GeoHousing) (p : PersonAgent) (k : ℕ) :
    (move_to_suitable_region m p k).2.income_level = p.income_level :=
  (move_preserves_person_fields m p k).1

@[simp] theorem move_snd_threshold (m : GeoHousing) (p : PersonAgent) (k : ℕ) :
    (move_to_suitable_region m p k).2.housing_quality_threshold
      = p.housing_quality_threshold :=
  (move_preserves_person_fields m p k).2.1

@[simp] theorem move_snd_max_complaint (m : GeoHousing) (p : PersonAgent) (k : ℕ) :
    (move_to_suitable_region m p k).2.max_complaint = p.max_complaint :=
  (move_preserves_person_fields m p k).2.2.1

@[simp] theorem move_snd_complaints (m : GeoHousing) (p : PersonAgent) (k : ℕ) :
    (move_to_suitable_region m p k).2.complaints = p.complaints :=
  (move_preserves_person_fields m p k).2.2.2.1

@[simp] theorem move_snd_total_complaints (m : GeoHousing) (p : PersonAgent) (k : ℕ) :
    (move_to_suitable_region m p k).2.total_complaints = p.total_complaints :=
  (move_preserves_person_fields m p k).2.2.2.2.1

@[simp] theorem move_snd_attempt_rent (m : GeoHousing) (p : PersonAgent) (k : ℕ) :
    (move_to_suitable_region m p k).2.attempt_rent = p.attempt_rent :=
  (move_preserves_person_fields m p k).2.2.2.2.2.1

@[simp] theorem move_snd_attempt_quality (m : GeoHousing) (p : PersonAgent) (k : ℕ) :
    (move_to_suitable_region m p k).2.attempt_quality = p.attempt_quality :=
  (move_preserves_person_fields m p k).2.2.2.2.2.2.1

@[simp] theorem move_snd_attempt_displaced (m : GeoHousing) (p : PersonAgent) (k : ℕ) :
    (move_to_suitable_region m p k).2.attempt_displaced = p.attempt_displaced :=
  (move_preserves_person_fields m p k).2.2.2.2.2.2.2

theorem displaced_phase_person_fields (m : GeoHousing) (p : PersonAgent) (k1 : ℕ) :
    (PersonAgent.displaced_phase m p k1).2.income_level = p.income_level ∧
    (PersonAgent.displaced_phase m p k1).2.housing_quality_threshold
        = p.housing_quality_threshold ∧
    (PersonAgent.displaced_phase m p k1).2.max_complaint = p.max_complaint ∧
    (PersonAgent.displaced_phase m p k1).2.complaints = p.complaints ∧
    (PersonAgent.displaced_phase m p k1).2.total_complaints = p.total_complaints ∧
    (PersonAgent.displaced_phase m p k1).2.attempt_rent = p.attempt_rent ∧
    (PersonAgent.displaced_phase m p k1).2.attempt_quality = p.attempt_quality := by
  unfold PersonAgent.displaced_phase
  by_cases hd : p.is_displaced <;> simp [hd]

theorem checks_complaints_le_total (m1 : GeoHousing) (A : RegionAgent)
    (p1 : PersonAgent) (k2 : ℕ) (h : p1.complaints ≤ p1.total_complaints) :
    (PersonAgent.checks m1 A p1 k2).2.complaints
      ≤ (PersonAgent.checks m1 A p1 k2).2.total_complaints := by
  simp only [PersonAgent.checks]
  split_ifs <;> (simp; try omega)

/-- C1: for a region tick in which neither the enforcement trigger nor
the renovation trigger holds, the post-step quality equals
`initial_quality * exp (-decay_constant * age)` with `age` the step
counter incremented at the start of the tick. -/
theorem c1_quality_pure_decay_without_events (m : GeoHousing) (r : RegionAgent)
    (h1 : ¬ 5 < num_complaints m r.unique_id)
    (h2 : ¬ rent_profit m r * 60 > rent_price m r * r.num_month_rent_renovation) :
    (RegionAgent.step m r).housing_quality
        = r.initial_quality * Real.exp (-(r.decay_constant * ((r.steps + 1 : ℕ) : ℝ))) ∧
    (RegionAgent.step m r).steps = r.steps + 1 ∧
    (RegionAgent.step m r).renovations = r.renovations := by
  simp only [RegionAgent.step, RegionAgent.decays]
  rw [if_neg h1]
  rw [rent_profit_update_steps, rent_price_update_steps]
  rw [if_neg h2]
  exact ⟨rfl, rfl, rfl⟩

/-- Region of the decay scenario: initial quality 100, decay constant
0.15, at age 9, about to reach age 10 on its next step. -/
def scenarioRegion : RegionAgent :=
  { unique_id := 0, rent_regulated := false, initial_quality := 100,
    housing_quality := 26, rent_discount := 0.5, renovations := 0,
    decay_constant := 0.15, rent_increase := 1.12,
    num_month_rent_renovation := 4, steps := 9 }

/-- A model holding only the scenario region: no residents anywhere, so
neither trigger can fire. -/
def scenarioModel : GeoHousing :=
  { regions := [scenarioRegion], persons := [], membership := [], neighbors := [] }

theorem hundred_exp_neg_three_halves_bounds :
    |100 * Real.exp (-(3 / 2 : ℝ)) - 22.31| < 1 / 100 := by
  have hpos : (0 : ℝ) < Real.exp (3 / 2) := Real.exp_pos _
  have hsq : Real.exp (3 / 2 : ℝ) ^ 2 = Real.exp 1 ^ 3 := by
    rw [← Real.exp_nat_mul, ← Real.exp_nat_mul]
    norm_num
  have hcube_lo : (20.0855 : ℝ) < Real.exp 1 ^ 3 := by
    have h : (2.7182818283 : ℝ) ^ 3 ≤ Real.exp 1 ^ 3 :=
      pow_le_pow_left₀ (by norm_num) Real.exp_one_gt_d9.le 3
    nlinarith [h]
  have hcube_hi : Real.exp 1 ^ 3 < (20.0856 : ℝ) := by
    have h : Real.exp 1 ^ 3 ≤ (2.7182818286 : ℝ) ^ 3 :=
      pow_le_pow_left₀ (Real.exp_pos 1).le Real.exp_one_lt_d9.le 3
    nlinarith [h]
  have hElo : (4.4815 : ℝ) < Real.exp (3 / 2) := by nlinarith [hpos, hsq, hcube_lo]
  have hEhi : Real.exp (3 / 2 : ℝ) < 4.4819 := by nlinarith [hpos, hsq, hcube_hi]
  have ha : 100 / Real.exp (3 / 2 : ℝ) < 22.32 := by
    rw [div_lt_iff₀ hpos]; nlinarith [hElo]
  have hb : (22.30 : ℝ) < 100 / Real.exp (3 / 2) := by
    rw [lt_div_iff₀ hpos]; nlinarith [hEhi]
  rw [Real.exp_neg, ← div_eq_mul_inv, abs_lt]
  constructor <;> [linarith; linarith]

/-- C1 witness: the scenario region (initial quality 100, decay constant
0.15, reaching age 10) in an empty model steps to quality
`100 * exp (-1.5)`, which is within 0.01 of 22.31. -/
theorem c1_quality_pure_decay_without_events_witness :
    (RegionAgent.step scenarioModel scenarioRegion).housing_quality
        = 100 * Real.exp (-(3 / 2 : ℝ)) ∧
    |100 * Real.exp (-(3 / 2 : ℝ)) - 22.31| < 1 / 100 := by
  have harea : area_ami scenarioModel 0 = 0 := by
    simp [area_ami, GeoHousing.neighborhood_residents, GeoHousing.residents,
      GeoHousing.membersOf, GeoHousing.neighborsOf, scenarioModel]
  have h1 : ¬ 5 < num_complaints scenarioModel scenarioRegion.unique_id := by
    simp [num_complaints, GeoHousing.residents, GeoHousing.membersOf,
      scenarioModel, scenarioRegion]
  have h2 : ¬ rent_profit scenarioModel scenarioRegion * 60
      > rent_price scenarioModel scenarioRegion * scenarioRegion.num_month_rent_renovation := by
    norm_num [rent_profit, rent_price, harea, scenarioRegion]
  have h := c1_quality_pure_decay_without_events scenarioModel scenarioRegion h1 h2
  refine ⟨?_, hundred_exp_neg_three_halves_bounds⟩
  rw [h.1]
  show (100 : ℝ) * Real.exp (-(0.15 * ((9 + 1 : ℕ) : ℝ))) = 100 * Real.exp (-(3 / 2 : ℝ))
  norm_num

/-- A region in which both the enforcement trigger and the renovation
trigger hold on the same tick. -/
def rBoth : RegionAgent :=
  { unique_id := 0, rent_regulated := false, initial_quality := 100,
    housing_quality := 80, rent_discount := 0.5, renovations := 0,
    decay_constant := 0.15, rent_increase := 1.12,
    num_month_rent_renovation := 4, steps := 0 }

/-- A resident of `rBoth` holding 6 complaints (enough to trigger
enforcement). -/
def pBoth : PersonAgent :=
  { unique_id := 1, income_level := 1, housing_quality_threshold := 65,
    max_complaint := 5, region_id := 0, move_count := 0, attempt_rent := 0,
    attempt_quality := 0, attempt_displaced := 0, is_displaced := false,
    displacement_count := 0, complaints := 6, total_complaints := 6 }

/-- Model holding `rBoth` with its single resident `pBoth`. -/
def mBoth : GeoHousing :=
  { regions := [rBoth], persons := [pBoth], membership := [(1, 0)], neighbors := [] }

theorem mBoth_complaints : num_complaints mBoth 0 = 6 := by decide

theorem mBoth_area : area_ami mBoth 0 = 1 := by
  have hres : mBoth.neighborhood_residents 0 = [pBoth] := rfl
  norm_num [area_ami, hres, pBoth]

theorem mBoth_renovation_trigger :
    rent_profit mBoth rBoth * 60 > rent_price mBoth rBoth * rBoth.num_month_rent_renovation := by
  norm_num [rent_profit, rent_price, mBoth_area, rBoth]

/-- C2 counterexample: in `mBoth` both trigger conditions hold on the
same tick, yet the renovation event does occur (the renovation counter
increments and the quality ends at the renovation ceiling 100), contrary
to the claim that enforcement then excludes renovation. -/
theorem c2_enforcement_renovation_not_exclusive_counterexample :
    5 < num_complaints mBoth rBoth.unique_id ∧
    rent_profit mBoth rBoth * 60 > rent_price mBoth rBoth * rBoth.num_month_rent_renovation ∧
    (RegionAgent.step mBoth rBoth).renovations = rBoth.renovations + 1 ∧
    (RegionAgent.step mBoth rBoth).housing_quality = 100 := by
  have h1 : 5 < num_complaints mBoth rBoth.unique_id := by decide
  have h2 := mBoth_renovation_trigger
  have key : RegionAgent.step mBoth rBoth
      = ((RegionAgent.decays { rBoth with steps := rBoth.steps + 1 }).enforcement).renovate := by
    simp only [RegionAgent.step]
    rw [if_pos (show 5 < num_complaints mBoth
      ((RegionAgent.decays { rBoth with steps := rBoth.steps + 1 }).unique_id) from h1)]
    rw [if_pos (show rent_profit mBoth
        ((RegionAgent.decays { rBoth with steps := rBoth.steps + 1 }).enforcement) * 60
      > rent_price mBoth ((RegionAgent.decays { rBoth with steps := rBoth.steps + 1 }).enforcement)
        * ((RegionAgent.decays { rBoth with steps := rBoth.steps + 1 }).enforcement).num_month_rent_renovation
      from h2)]
  exact ⟨h1, h2, by rw [key]; rfl, by rw [key]; rfl⟩

/-- C2 (amended): enforcement is evaluated before renovation, but the
two events are not mutually exclusive: when both trigger conditions hold
in the same tick, both fire — the step equals renovation applied after
enforcement on the decayed state, and the renovation counter
increments. -/
theorem c2_enforcement_then_renovation_when_both_triggers (m : GeoHousing) (r : RegionAgent)
    (h1 : 5 < num_complaints m r.unique_id)
    (h2 : rent_profit m r * 60 > rent_price m r * r.num_month_rent_renovation) :
    RegionAgent.step m r
        = ((RegionAgent.decays { r with steps := r.steps + 1 }).enforcement).renovate ∧
    (RegionAgent.step m r).renovations = r.renovations + 1 := by
  have key : RegionAgent.step m r
      = ((RegionAgent.decays { r with steps := r.steps + 1 }).enforcement).renovate := by
    simp only [RegionAgent.step]
    rw [if_pos (show 5 < num_complaints m
      ((RegionAgent.decays { r with steps := r.steps + 1 }).unique_id) from h1)]
    rw [if_pos (show rent_profit m
        ((RegionAgent.decays { r with steps := r.steps + 1 }).enforcement) * 60
      > rent_price m ((RegionAgent.decays { r with steps := r.steps + 1 }).enforcement)
        * ((RegionAgent.decays { r with steps := r.steps + 1 }).enforcement).num_month_rent_renovation
      from h2)]
  exact ⟨key, by rw [key]; rfl⟩

/-- C2 witness: the amended theorem applied to the concrete model
`mBoth`, in which both triggers hold. -/
theorem c2_enforcement_then_renovation_when_both_triggers_witness :
    5 < num_complaints mBoth rBoth.unique_id ∧
    rent_profit mBoth rBoth * 60 > rent_price mBoth rBoth * rBoth.num_month_rent_renovation ∧
    RegionAgent.step mBoth rBoth
      = ((RegionAgent.decays { rBoth with steps := rBoth.steps + 1 }).enforcement).renovate := by
  have h1 : 5 < num_complaints mBoth rBoth.unique_id := by decide
  have h2 := mBoth_renovation_trigger
  exact ⟨h1, h2, (c2_enforcement_then_renovation_when_both_triggers mBoth rBoth h1 h2).1⟩

/-- A region at age 7 with 3 renovations, used to exercise the
enforcement reset. -/
def rAge : RegionAgent :=
  { unique_id := 2, rent_regulated := true, initial_quality := 90,
    housing_quality := 31, rent_discount := 0.5, renovations := 3,
    decay_constant := 0.2, rent_increase := 1.02,
    num_month_rent_renovation := 4, steps := 7 }

/-- C7 counterexample: `enforcement` resets the age counter to 0 while
leaving the renovation counter untouched, so the age counter does reset
independently of the renovation-count update. -/
theorem c7_age_reset_without_renovation_counterexample :
    rAge.steps = 7 ∧
    (RegionAgent.enforcement rAge).steps = 0 ∧
    (RegionAgent.enforcement rAge).renovations = rAge.renovations :=
  ⟨rfl, rfl, rfl⟩

/-- C7 (amended): `renovate` increments the renovation counter and
resets the age counter together, and no operation updates the renovation
counter without resetting the age counter; but `enforcement` resets the
age counter to 0 without updating the renovation counter (`decays`
touches neither). -/
theorem c7_renovation_count_and_age_reset (r : RegionAgent) :
    (RegionAgent.renovate r).renovations = r.renovations + 1 ∧
    (RegionAgent.renovate r).steps = 0 ∧
    (RegionAgent.enforcement r).renovations = r.renovations ∧
    (RegionAgent.enforcement r).steps = 0 ∧
    (RegionAgent.decays r).renovations = r.renovations ∧
    (RegionAgent.decays r).steps = r.steps :=
  ⟨rfl, rfl, rfl, rfl, rfl, rfl⟩

/-- The rent formula in the spec's words: half the area income, scaled
by the discount factor exactly when regulated, times the rent-increase
multiplier raised to the renovation count. -/
noncomputable def rentPrice_spec (m : GeoHousing) (r : RegionAgent) : ℝ :=
  0.5 * area_ami m r.unique_id * (if r.rent_regulated then r.rent_discount else 1)
    * r.rent_increase ^ r.renovations

/-- C5: the implemented `rent_price` coincides with the spec's rent
formula for every region in every model state. -/
theorem c5_rent_price_matches_spec (m : GeoHousing) (r : RegionAgent) :
    rent_price m r = rentPrice_spec m r := by
  unfold rent_price rentPrice_spec
  cases h : r.rent_regulated <;> simp [h]

/-- The construction-time configuration scalars of `GeoHousing`. -/
structure Config where
  seed : ℕ
  has_regulation : Bool
  rent_discount : ℝ
  base_decay_constant : ℝ
  decay_differential : ℝ
  num_month_rent_renovation : ℝ
  rent_increase_differential : ℝ

/-- `RegionAgent.__init__`: the regulation flag and the initial quality
are drawn from the global `random` module (`random.choice`,
`random.uniform`), which the model's seed does not govern; those two
global draws are the explicit arguments `globalChoice` and
`globalUniform`. -/
def regionInit (cfg : Config) (uid : ℕ) (globalChoice : Bool) (globalUniform : ℝ) :
    RegionAgent :=
  let regulated := if cfg.has_regulation then globalChoice else false
  { unique_id := uid,
    rent_regulated := regulated,
    initial_quality := globalUniform,
    housing_quality := globalUniform,
    rent_discount := cfg.rent_discount,
    renovations := 0,
    decay_constant :=
      if regulated then cfg.base_decay_constant + cfg.decay_differential
      else cfg.base_decay_constant,
    rent_increase := if regulated then 1.02 else 1.02 + cfg.rent_increase_differential,
    num_month_rent_renovation := cfg.num_month_rent_renovation,
    steps := 0 }

/-- The default configuration of `GeoHousing.__init__`. -/
def defaultConfig : Config :=
  { seed := 42, has_regulation := true, rent_discount := 0.5,
    base_decay_constant := 0.15, decay_differential := 0.05,
    num_month_rent_renovation := 4, rent_increase_differential := 0.1 }

/-- C6: region construction reads the unseeded global random module, so
with identical seed and configuration but different global-module states
the constructed regions differ (regulation flag and decay constant), and
the run is not a function of seed, configuration and geometry alone. -/
theorem c6_region_init_depends_on_global_rng :
    (regionInit defaultConfig 0 true 80).rent_regulated
        ≠ (regionInit defaultConfig 0 false 80).rent_regulated ∧
    (regionInit defaultConfig 0 true 80).decay_constant
        ≠ (regionInit defaultConfig 0 false 80).decay_constant := by
  constructor
  · decide
  · show (0.15 : ℝ) + 0.05 ≠ 0.15
    norm_num

theorem move_success (m : GeoHousing) (p : PersonAgent) (k : ℕ) (nr : RegionAgent)
    (h : (suitable_regions m p)[k % (suitable_regions m p).length]? = some nr) :
    move_to_suitable_region m p k
      = (((m.remove_person_from_region p).add_person_to_region p nr.unique_id).1,
         { p with region_id := nr.unique_id, move_count := p.move_count + 1 }) := by
  unfold move_to_suitable_region
  simp [h, GeoHousing.add_person_to_region]

theorem move_failure (m : GeoHousing) (p : PersonAgent) (k : ℕ)
    (h : suitable_regions m p = []) :
    move_to_suitable_region m p k
      = (m, { p with is_displaced := true,
                     displacement_count := p.displacement_count + 1 }) := by
  unfold move_to_suitable_region
  simp [h]

/-- C4: on a relocation attempt with an empty candidate set the person
is flagged displaced, the displacement counter increments by exactly
one, and neither a membership removal nor an insertion happens: the
model state (the membership map in particular) is unchanged. -/
theorem c4_empty_candidates_displacement (m : GeoHousing) (p : PersonAgent) (k : ℕ)
    (h : suitable_regions m p = []) :
    (move_to_suitable_region m p k).1 = m ∧
    (move_to_suitable_region m p k).2.is_displaced = true ∧
    (move_to_suitable_region m p k).2.displacement_count = p.displacement_count + 1 ∧
    (move_to_suitable_region m p k).2.region_id = p.region_id ∧
    (move_to_suitable_region m p k).2.move_count = p.move_count ∧
    (move_to_suitable_region m p k).2.complaints = p.complaints := by
  rw [move_failure m p k h]
  exact ⟨rfl, rfl, rfl, rfl, rfl, rfl⟩

/-- C3 (amended): on a relocation attempt with a nonempty candidate set,
the destination is the candidate selected by the uniformly drawn index,
membership is transferred by removing the person and then adding it to
the destination, the move counter increments by exactly one — but the
displaced flag is left unchanged rather than cleared (nothing in the
code ever resets `is_displaced` to false). -/
theorem c3_relocation_transfer (m : GeoHousing) (p : PersonAgent) (k : ℕ)
    (hk : k < (suitable_regions m p).length) :
    (move_to_suitable_region m p k).1
        = ((m.remove_person_from_region p).add_person_to_region p
            ((suitable_regions m p).get ⟨k, hk⟩).unique_id).1 ∧
    (move_to_suitable_region m p k).2.region_id
        = ((suitable_regions m p).get ⟨k, hk⟩).unique_id ∧
    (move_to_suitable_region m p k).2.move_count = p.move_count + 1 ∧
    (move_to_suitable_region m p k).2.is_displaced = p.is_displaced ∧
    (move_to_suitable_region m p k).2.displacement_count = p.displacement_count := by
  have hget : (suitable_regions m p)[k % (suitable_regions m p).length]?
      = some ((suitable_regions m p).get ⟨k, hk⟩) := by
    rw [Nat.mod_eq_of_lt hk, List.getElem?_eq_getElem hk]
    simp [List.get_eq_getElem]
  rw [move_success m p k _ hget]
  exact ⟨rfl, rfl, rfl, rfl, rfl⟩

/-- A vacant region of quality 80 with rent 0, a valid relocation
destination. -/
def rQ80 : RegionAgent :=
  { unique_id := 0, rent_regulated := false, initial_quality := 100,
    housing_quality := 80, rent_discount := 0.5, renovations := 0,
    decay_constant := 0.15, rent_increase := 1.12,
    num_month_rent_renovation := 4, steps := 1 }

/-- A displaced person with threshold 50 and income 1, for whom `rQ80`
qualifies. -/
def pDisp : PersonAgent :=
  { unique_id := 1, income_level := 1, housing_quality_threshold := 50,
    max_complaint := 5, region_id := 0, move_count := 0, attempt_rent := 0,
    attempt_quality := 0, attempt_displaced := 0, is_displaced := true,
    displacement_count := 1, complaints := 0, total_complaints := 0 }

/-- Model holding only the vacant region `rQ80` and the displaced person
`pDisp` (no memberships). -/
def mOne : GeoHousing :=
  { regions := [rQ80], persons := [pDisp], membership := [], neighbors := [] }

theorem mOne_suitable : suitable_regions mOne pDisp = [rQ80] := by
  have harea : area_ami mOne 0 = 0 := by
    have hres : mOne.neighborhood_residents 0 = [] := rfl
    norm_num [area_ami, hres]
  have hcond : pDisp.housing_quality_threshold ≤ rQ80.housing_quality ∧
      rent_price mOne rQ80 ≤ pDisp.maximum_affordable_rent ∧
      people_count mOne rQ80.unique_id ≤ 2 := by
    refine ⟨by norm_num [pDisp, rQ80], ?_, by decide⟩
    norm_num [rent_price, harea, PersonAgent.maximum_affordable_rent, pDisp, rQ80]
  unfold suitable_regions
  rw [show mOne.regions = [rQ80] from rfl]
  simp only [List.filter_cons, List.filter_nil, decide_eq_true_eq]
  rw [if_pos hcond]

/-- C3 counterexample: a displaced person relocates successfully (the
candidate set is nonempty, the move counter increments), yet its
displaced flag is still true after the move instead of false. -/
theorem c3_displaced_flag_not_cleared_counterexample :
    suitable_regions mOne pDisp ≠ [] ∧
    (move_to_suitable_region mOne pDisp 0).2.move_count = pDisp.move_count + 1 ∧
    (move_to_suitable_region mOne pDisp 0).2.is_displaced = true := by
  have hget : (suitable_regions mOne pDisp)[0 % (suitable_regions mOne pDisp).length]?
      = some rQ80 := by rw [mOne_suitable]; rfl
  rw [move_success mOne pDisp 0 rQ80 hget]
  refine ⟨by rw [mOne_suitable]; simp, rfl, rfl⟩

/-- C3 witness: the amended theorem applied to the displaced person
`pDisp` in `mOne`, whose candidate list is `[rQ80]`: the person moves to
`rQ80`, the move counter increments, and the displaced flag keeps its
(true) value. -/
theorem c3_relocation_transfer_witness :
    0 < (suitable_regions mOne pDisp).length ∧
    (move_to_suitable_region mOne pDisp 0).2.region_id = rQ80.unique_id ∧
    (move_to_suitable_region mOne pDisp 0).2.move_count = pDisp.move_count + 1 ∧
    (move_to_suitable_region mOne pDisp 0).2.is_displaced = pDisp.is_displaced := by
  have hk : 0 < (suitable_regions mOne pDisp).length := by rw [mOne_suitable]; norm_num
  have h := c3_relocation_transfer mOne pDisp 0 hk
  have hgetv : (suitable_regions mOne pDisp).get ⟨0, hk⟩ = rQ80 := by
    have h0 : (suitable_regions mOne pDisp)[0]? = some rQ80 := by
      rw [mOne_suitable]; rfl
    have h1 : (suitable_regions mOne pDisp)[0]?
        = some ((suitable_regions mOne pDisp).get ⟨0, hk⟩) := by
      rw [List.getElem?_eq_getElem hk]
      simp [List.get_eq_getElem]
    rw [h0] at h1
    exact (Option.some_inj.mp h1).symm
  refine ⟨hk, ?_, h.2.2.1, h.2.2.2.1⟩
  rw [h.2.1, hgetv]

/-- A person whose quality threshold 90 exceeds every available quality,
so that no candidate region qualifies. -/
def pPicky : PersonAgent :=
  { unique_id := 3, income_level := 1, housing_quality_threshold := 90,
    max_complaint := 5, region_id := 0, move_count := 2, attempt_rent := 0,
    attempt_quality := 0, attempt_displaced := 0, is_displaced := false,
    displacement_count := 0, complaints := 2, total_complaints := 4 }

theorem mOne_picky_empty : suitable_regions mOne pPicky = [] := by
  unfold suitable_regions
  rw [show mOne.regions = [rQ80] from rfl]
  simp only [List.filter_cons, List.filter_nil, decide_eq_true_eq]
  rw [if_neg]
  intro h
  have : (90 : ℝ) ≤ 80 := h.1
  norm_num at this

/-- C4 witness: the person `pPicky` (threshold 90) finds no candidate in
`mOne`; it becomes displaced, its displacement counter increments by
one, and the model state is unchanged. -/
theorem c4_empty_candidates_displacement_witness :
    suitable_regions mOne pPicky = [] ∧
    (move_to_suitable_region mOne pPicky 0).1 = mOne ∧
    (move_to_suitable_region mOne pPicky 0).2.is_displaced = true ∧
    (move_to_suitable_region mOne pPicky 0).2.displacement_count
        = pPicky.displacement_count + 1 := by
  have h := c4_empty_candidates_displacement mOne pPicky 0 mOne_picky_empty
  exact ⟨mOne_picky_empty, h.1, h.2.1, h.2.2.1⟩

theorem area_ami_of_empty_neighborhood (m : GeoHousing) (rid : ℕ)
    (h : m.neighborhood_residents rid = []) : area_ami m rid = 0 := by
  unfold area_ami
  rw [h]
  rfl

/-- C9 (amended): aggregates over empty resident sets return the neutral
value 0 instead of failing: a region with no residents of its own has
`own_ami = 0` and `num_complaints = 0`, and when its whole neighborhood
(itself plus its cached neighbors) is resident-free, `area_ami = 0` and
`rent_profit = 0` as well. -/
theorem c9_empty_aggregates_zero (m : GeoHousing) (r : RegionAgent)
    (hown : m.residents r.unique_id = []) :
    own_ami m r.unique_id = 0 ∧
    num_complaints m r.unique_id = 0 ∧
    (m.neighborhood_residents r.unique_id = [] →
      area_ami m r.unique_id = 0 ∧ rent_profit m r = 0) := by
  refine ⟨?_, ?_, ?_⟩
  · unfold own_ami
    rw [hown]
    rfl
  · unfold num_complaints
    rw [hown]
    rfl
  · intro hnbhd
    have harea := area_ami_of_empty_neighborhood m r.unique_id hnbhd
    refine ⟨harea, ?_⟩
    unfold rent_profit
    rw [harea]
    split_ifs <;> ring

/-- C9 witness: the amended theorem applied to the scenario region in
the empty model, where all four aggregates evaluate to 0. -/
theorem c9_empty_aggregates_zero_witness :
    GeoHousing.residents scenarioModel scenarioRegion.unique_id = [] ∧
    own_ami scenarioModel scenarioRegion.unique_id = 0 ∧
    num_complaints scenarioModel scenarioRegion.unique_id = 0 ∧
    area_ami scenarioModel scenarioRegion.unique_id = 0 ∧
    rent_profit scenarioModel scenarioRegion = 0 := by
  have hown : GeoHousing.residents scenarioModel scenarioRegion.unique_id = [] := rfl
  have h := c9_empty_aggregates_zero scenarioModel scenarioRegion hown
  have hboth := h.2.2 rfl
  exact ⟨hown, h.1, h.2.1, hboth.1, hboth.2⟩

/-- A vacant region with an occupied neighbor. -/
def rEmpty : RegionAgent :=
  { unique_id := 0, rent_regulated := false, initial_quality := 100,
    housing_quality := 70, rent_discount := 0.5, renovations := 0,
    decay_constant := 0.15, rent_increase := 1.12,
    num_month_rent_renovation := 4, steps := 2 }

/-- The occupied neighbor of `rEmpty`. -/
def rNb : RegionAgent :=
  { unique_id := 1, rent_regulated := false, initial_quality := 100,
    housing_quality := 75, rent_discount := 0.5, renovations := 0,
    decay_constant := 0.15, rent_increase := 1.12,
    num_month_rent_renovation := 4, steps := 2 }

/-- The resident of `rNb`, with income 2. -/
def pRich : PersonAgent :=
  { unique_id := 9, income_level := 2, housing_quality_threshold := 60,
    max_complaint := 5, region_id := 1, move_count := 0, attempt_rent := 0,
    attempt_quality := 0, attempt_displaced := 0, is_displaced := false,
    displacement_count := 0, complaints := 0, total_complaints := 0 }

/-- Model in which `rEmpty` is vacant but adjacent to the occupied
region `rNb`. -/
def mNeighbor : GeoHousing :=
  { regions := [rEmpty, rNb], persons := [pRich],
    membership := [(9, 1)], neighbors := [(0, [1]), (1, [0])] }

/-- C9 counterexample: `rEmpty` has no residents of its own, yet its
`area_ami` is 2 (its neighbor's resident income counts) and its
`rent_profit` is nonzero, contradicting the claim that every aggregate
of a resident-free region evaluates to 0. -/
theorem c9_empty_region_nonzero_area_counterexample :
    GeoHousing.residents mNeighbor rEmpty.unique_id = [] ∧
    area_ami mNeighbor rEmpty.unique_id = 2 ∧
    area_ami mNeighbor rEmpty.unique_id ≠ 0 ∧
    rent_profit mNeighbor rEmpty ≠ 0 := by
  have harea : area_ami mNeighbor 0 = 2 := by
    have hres : mNeighbor.neighborhood_residents 0 = [pRich] := rfl
    norm_num [area_ami, hres, pRich]
  have h2 : area_ami mNeighbor rEmpty.unique_id = 2 := harea
  refine ⟨rfl, h2, by rw [h2]; norm_num, ?_⟩
  norm_num [rent_profit, harea, rEmpty]

/-- C8: the per-region complaint counter never exceeds the cumulative
total-complaints counter: both start at 0, and the invariant
`complaints ≤ total_complaints` is preserved by every relocation attempt
(move or displacement) and by the person's step. -/
theorem c8_complaints_le_total (m : GeoHousing) (p : PersonAgent) (k k1 k2 : ℕ)
    (h : p.complaints ≤ p.total_complaints) :
    ((move_to_suitable_region m p k).2.complaints
        ≤ (move_to_suitable_region m p k).2.total_complaints) ∧
    ∀ q ∈ PersonAgent.step m p k1 k2, q.2.complaints ≤ q.2.total_complaints := by
  refine ⟨by simp [h], ?_⟩
  intro q hq
  unfold PersonAgent.step at hq
  cases hfind : m.get_region_by_id p.region_id with
  | none => rw [hfind] at hq; simp at hq
  | some A =>
    rw [hfind] at hq
    simp only [Option.mem_def, Option.some.injEq] at hq
    subst hq
    obtain ⟨-, -, -, hc1, ht1, -, -⟩ := displaced_phase_person_fields m p k1
    exact checks_complaints_le_total _ A _ k2 (by rw [hc1, ht1]; exact h)

/-- C8 witness: the invariant theorem applied to the concrete person
`pBoth` (6 complaints, 6 total) in `mBoth`. -/
theorem c8_complaints_le_total_witness :
    pBoth.complaints ≤ pBoth.total_complaints ∧
    ∀ q ∈ PersonAgent.step mBoth pBoth 0 0,
      q.2.complaints ≤ q.2.total_complaints := by
  have h : pBoth.complaints ≤ pBoth.total_complaints := by decide
  exact ⟨h, (c8_complaints_le_total mBoth pBoth 0 0 0 h).2⟩

/-- C10: `PersonAgent.step` resolves the region from `region_id` exactly
once at entry; a person that starts displaced and relocates in the
displaced branch does not end its step there — the displaced attempt is
counted and the rent/quality checks still run, evaluated against the
entry (pre-move) region `A`, not against the newly assigned region. -/
theorem c10_checks_use_entry_region (m : GeoHousing) (p : PersonAgent) (k1 k2 : ℕ)
    (A : RegionAgent)
    (hd : p.is_displaced = true)
    (hA : m.get_region_by_id p.region_id = some A) :
    ∃ q, PersonAgent.step m p k1 k2 = some q ∧
      q.2.attempt_displaced = p.attempt_displaced + 1 ∧
      (p.maximum_affordable_rent < rent_price (move_to_suitable_region m p k1).1 A →
        q.2.attempt_rent = p.attempt_rent + 1 ∧ q.2.complaints = 0) ∧
      (¬ p.maximum_affordable_rent < rent_price (move_to_suitable_region m p k1).1 A →
        A.housing_quality < p.housing_quality_threshold →
        q.2.total_complaints = p.total_complaints + 1) := by
  have hphase : PersonAgent.displaced_phase m p k1
      = ((move_to_suitable_region m p k1).1,
         { (move_to_suitable_region m p k1).2 with
            attempt_displaced := (move_to_suitable_region m p k1).2.attempt_displaced + 1 }) := by
    simp [PersonAgent.displaced_phase, hd]
  obtain ⟨hi, hth, -, -, htc, har, -⟩ := displaced_phase_person_fields m p k1
  have had : (PersonAgent.displaced_phase m p k1).2.attempt_displaced
      = p.attempt_displaced + 1 := by
    rw [hphase]; simp
  have hmar : (PersonAgent.displaced_phase m p k1).2.maximum_affordable_rent
      = p.maximum_affordable_rent := by
    unfold PersonAgent.maximum_affordable_rent
    rw [hi]
  have hm1 : (PersonAgent.displaced_phase m p k1).1
      = (move_to_suitable_region m p k1).1 := by rw [hphase]
  refine ⟨PersonAgent.checks (PersonAgent.displaced_phase m p k1).1 A
      (PersonAgent.displaced_phase m p k1).2 k2, ?_, ?_, ?_, ?_⟩
  · unfold PersonAgent.step
    rw [hA]
  · simp only [PersonAgent.checks]
    split_ifs <;> simp [had]
  · intro hrent
    simp only [PersonAgent.checks]
    rw [if_pos (show (PersonAgent.displaced_phase m p k1).2.maximum_affordable_rent
        < rent_price (PersonAgent.displaced_phase m p k1).1 A by
          rw [hmar, hm1]; exact hrent)]
    exact ⟨by simp [har], rfl⟩
  · intro hrent hqual
    simp only [PersonAgent.checks]
    rw [if_neg (show ¬ (PersonAgent.displaced_phase m p k1).2.maximum_affordable_rent
        < rent_price (PersonAgent.displaced_phase m p k1).1 A by
          rw [hmar, hm1]; exact hrent)]
    rw [if_pos (show A.housing_quality
        < (PersonAgent.displaced_phase m p k1).2.housing_quality_threshold by
          rw [hth]; exact hqual)]
    split_ifs with hmx
    · simp [htc]
    · simp [htc]

/-- Entry region of the displaced person `pTen`: quality 40, occupied by
the high-income `pNb10`, hence over-priced and under-quality. -/
def rTenA : RegionAgent :=
  { unique_id := 0, rent_regulated := false, initial_quality := 100,
    housing_quality := 40, rent_discount := 0.5, renovations := 0,
    decay_constant := 0.15, rent_increase := 1.12,
    num_month_rent_renovation := 4, steps := 3 }

/-- Vacant quality-80 region, the relocation destination. -/
def rTenB : RegionAgent :=
  { unique_id := 1, rent_regulated := false, initial_quality := 100,
    housing_quality := 80, rent_discount := 0.5, renovations := 0,
    decay_constant := 0.15, rent_increase := 1.12,
    num_month_rent_renovation := 4, steps := 1 }

/-- The displaced person beginning its step in `rTenA`. -/
def pTen : PersonAgent :=
  { unique_id := 100, income_level := 1, housing_quality_threshold := 50,
    max_complaint := 5, region_id := 0, move_count := 0, attempt_rent := 0,
    attempt_quality := 0, attempt_displaced := 0, is_displaced := true,
    displacement_count := 1, complaints := 0, total_complaints := 0 }

/-- The high-income co-resident of `rTenA`. -/
def pNb10 : PersonAgent :=
  { unique_id := 101, income_level := 2, housing_quality_threshold := 50,
    max_complaint := 5, region_id := 0, move_count := 0, attempt_rent := 0,
    attempt_quality := 0, attempt_displaced := 0, is_displaced := false,
    displacement_count := 0, complaints := 0, total_complaints := 0 }

/-- Model at the entry of `pTen`'s step: both persons are members of
`rTenA`, `rTenB` is vacant. -/
def mTen : GeoHousing :=
  { regions := [rTenA, rTenB], persons := [pTen, pNb10],
    membership := [(100, 0), (101, 0)], neighbors := [] }

/-- The model after `pTen`'s displaced-branch move into `rTenB`. -/
def mTenAfter : GeoHousing :=
  { regions := [rTenA, rTenB], persons := [pTen, pNb10],
    membership := [(100, 1), (101, 0)], neighbors := [] }

theorem mTen_suitable : suitable_regions mTen pTen = [rTenB] := by
  have harea1 : area_ami mTen 1 = 0 := by
    have hres : mTen.neighborhood_residents 1 = [] := rfl
    norm_num [area_ami, hres]
  have hcondB : pTen.housing_quality_threshold ≤ rTenB.housing_quality ∧
      rent_price mTen rTenB ≤ pTen.maximum_affordable_rent ∧
      people_count mTen rTenB.unique_id ≤ 2 := by
    refine ⟨by norm_num [pTen, rTenB], ?_, by decide⟩
    norm_num [rent_price, harea1, PersonAgent.maximum_affordable_rent, pTen, rTenB]
  have hcondA : ¬ (pTen.housing_quality_threshold ≤ rTenA.housing_quality ∧
      rent_price mTen rTenA ≤ pTen.maximum_affordable_rent ∧
      people_count mTen rTenA.unique_id ≤ 2) := by
    intro hcon
    have h0 := hcon.1
    norm_num [pTen, rTenA] at h0
  unfold suitable_regions
  rw [show mTen.regions = [rTenA, rTenB] from rfl]
  simp only [List.filter_cons, List.filter_nil, decide_eq_true_eq]
  rw [if_neg hcondA, if_pos hcondB]

theorem mTen_move : (move_to_suitable_region mTen pTen 0).1 = mTenAfter := by
  have hget : (suitable_regions mTen pTen)[0 % (suitable_regions mTen pTen).length]?
      = some rTenB := by rw [mTen_suitable]; rfl
  rw [move_success mTen pTen 0 rTenB hget]
  rfl

/-- C10 witness: `pTen` starts displaced in `rTenA`, relocates to the
affordable `rTenB` in the displaced branch, and the step still runs the
rent check against `rTenA` (unaffordable after the move), so the rent
attempt is counted too. -/
theorem c10_checks_use_entry_region_witness :
    pTen.is_displaced = true ∧
    mTen.get_region_by_id pTen.region_id = some rTenA ∧
    pTen.maximum_affordable_rent
      < rent_price (move_to_suitable_region mTen pTen 0).1 rTenA ∧
    ∃ q, PersonAgent.step mTen pTen 0 0 = some q ∧
      q.2.attempt_displaced = pTen.attempt_displaced + 1 ∧
      q.2.attempt_rent = pTen.attempt_rent + 1 ∧
      q.2.complaints = 0 := by
  have hd : pTen.is_displaced = true := rfl
  have hA : mTen.get_region_by_id pTen.region_id = some rTenA := rfl
  have hareaAfter : area_ami mTenAfter 0 = 2 := by
    have hres : mTenAfter.neighborhood_residents 0 = [pNb10] := rfl
    norm_num [area_ami, hres, pNb10]
  have hrent : pTen.maximum_affordable_rent
      < rent_price (move_to_suitable_region mTen pTen 0).1 rTenA := by
    rw [mTen_move]
    norm_num [rent_price, hareaAfter, PersonAgent.maximum_affordable_rent, pTen, rTenA]
  obtain ⟨q, hstep, hdisp, hrentc, -⟩ :=
    c10_checks_use_entry_region mTen pTen 0 0 rTenA hd hA
  obtain ⟨hr1, hr2⟩ := hrentc hrent
  exact ⟨hd, hA, hrent, q, hstep, hdisp, hr1, hr2⟩
